import Mathlib

/-!
Shallow embedding of the VisionaryAI consultation orchestrator:
the gemini service (`detectIntent`, `generateEyewearImage`, `chatWithStylist`)
and the App component's turn pipeline (`handleSendMessage`) together with the
image-state handlers.  The external generative backend is modelled as an
oracle function; everything the repository's own code does (request
composition, routing, state updates, response normalisation) is translated
directly from the source.
-/

namespace VisionaryAI

/-! ## JavaScript string primitives used by the source -/

/-- Models JavaScript String.prototype.toLowerCase (via Char.toLower). -/
def toLowerCase (s : String) : String :=
  String.mk (s.data.map Char.toLower)

/-- Models JavaScript String.prototype.includes: substring containment. -/
def jsIncludes (s pat : String) : Bool :=
  (s.data.tails).any (fun t => pat.data.isPrefixOf t)

/-- Models JavaScript String.prototype.trim: drops whitespace from both
ends. -/
def jsTrim (s : String) : String :=
  String.mk
    (((s.data.dropWhile Char.isWhitespace).reverse.dropWhile
        Char.isWhitespace).reverse)

/-- Truthiness of a JavaScript string: falsy exactly when empty. -/
def truthyStr (s : String) : Bool :=
  s != ""

/-- Truthiness of a JavaScript `string | null` value: null and the empty
string are falsy. -/
def truthy : Option String → Bool
  | none => false
  | some s => truthyStr s

/-- Models the JavaScript `a || b` fallback on `string | null` values:
yields `a` when `a` is truthy, otherwise `b`. -/
def jsOr (a b : Option String) : Option String :=
  if truthy a then a else b

/-- Splits a character list on a separator, keeping empty chunks, exactly as
JavaScript String.prototype.split on a single-character separator does. -/
def splitOnChar (sep : Char) : List Char → List (List Char)
  | [] => [[]]
  | c :: rest =>
    if c = sep then [] :: splitOnChar sep rest
    else
      match splitOnChar sep rest with
      | [] => [[c]]
      | h :: t => (c :: h) :: t

/-- Source: `const cleanBase64 = (dataUrl) => dataUrl.split(',')[1]`.
The out-of-range access (no comma in the input), which is `undefined` in
JavaScript, is modelled as the empty string. -/
def cleanBase64 (dataUrl : String) : String :=
  match splitOnChar ',' dataUrl.data with
  | _ :: second :: _ => String.mk second
  | _ => ""

/-! ## Data model (types.ts) -/

inductive MessageRole
  | USER
  | MODEL
  | SYSTEM
deriving DecidableEq, Repr

structure GroundingUrl where
  title : String
  uri : String
deriving DecidableEq, Repr

/-- The types.ts `ChatMessage` record.  The optional fields default to the
values the source's object literals leave implicit. -/
structure ChatMessage where
  role : MessageRole
  text : String
  timestamp : Nat
  isError : Bool := false
  groundingUrls : List GroundingUrl := []
deriving DecidableEq, Repr

/-! ## Gateway contract (external collaborator)

The calls to `ai.models.generateContent` are the external boundary.  A
request is the list of parts the service sends; the oracle answers with the
fields the source subsequently reads (or a transport failure). -/

/-- One entry of the `parts` array of a request: either an inline image
payload with its declared mime type, or a text part. -/
inductive Part
  | inlineData (data : String) (mimeType : String)
  | text (t : String)
deriving DecidableEq, Repr

/-- Source helper `fileToGenerativePart`. -/
def fileToGenerativePart (base64Data : String) (mimeType : String) : Part :=
  Part.inlineData base64Data mimeType

/-- A grounding chunk of a chat response: `chunk.web?.title` and
`chunk.web?.uri`, each possibly absent. -/
structure WebChunk where
  title : Option String
  uri : Option String
deriving DecidableEq, Repr

/-- Oracle for the image model: given the composed parts, returns
`candidates?.[0]?.content?.parts?.[0]?.inlineData?.data` (`none` when the
provider returned no image payload), or a transport failure. -/
def SynthGateway : Type :=
  List Part → Except Unit (Option String)

/-- Oracle for the chat model: given the composed parts, returns
`response.text` (`none` when absent) and the grounding chunks, or a
transport failure.  The source enables Google-Search grounding on every
such request. -/
def ConsultGateway : Type :=
  List Part → Except Unit (Option String × List WebChunk)

/-! ## geminiService -/

/-- The instruction template used when a reference image is attached. -/
def withReferencePrompt (prompt : String) : String :=
  "Using the first image as the base and the second image as a reference for the eyewear style, "
    ++ prompt
    ++ ". Ensure the glasses fit the face naturally with correct perspective, lighting, and shadows. High quality, photorealistic."

/-- The instruction template used when no reference image is attached. -/
def noReferencePrompt (prompt : String) : String :=
  "Edit the image to: " ++ prompt
    ++ ". Ensure photorealistic results, correct lighting, and natural fit on the face. High resolution."

/-- The parts array `generateEyewearImage` composes before calling the
backend: base image, optional reference image, then the refined prompt.
The reference is attached when the argument is truthy, as in the source's
`if (referenceImageBase64)`. -/
def generateEyewearImageParts (baseImageBase64 : String) (prompt : String)
    (referenceImageBase64 : Option String) : List Part :=
  let parts1 := [fileToGenerativePart baseImageBase64 "image/jpeg"]
  let parts2 :=
    if truthy referenceImageBase64 then
      parts1 ++ [fileToGenerativePart (referenceImageBase64.getD "") "image/jpeg"]
    else parts1
  let finalPrompt :=
    if truthy referenceImageBase64 then withReferencePrompt prompt
    else noReferencePrompt prompt
  parts2 ++ [Part.text finalPrompt]

/-- Source `generateEyewearImage`: composes the parts, calls the image
model, and returns the generated bytes; a missing `inlineData` payload is
the thrown "No image generated from the model." error. -/
def generateEyewearImage (gw : SynthGateway) (baseImageBase64 : String)
    (prompt : String) (referenceImageBase64 : Option String) :
    Except Unit String :=
  match gw (generateEyewearImageParts baseImageBase64 prompt referenceImageBase64) with
  | Except.error e => Except.error e
  | Except.ok none => Except.error ()
  | Except.ok (some data) => Except.ok data

/-- The caption attached with the current look in a consultation request. -/
def stylistCaption : String :=
  "This is the current image of the user wearing glasses. Focus on the glasses style, shape, color, and material."

/-- The fallback text substituted when the provider returns no text. -/
def fallbackStylistText : String :=
  "I couldn\x27t generate a text response."

/-- The parts array `chatWithStylist` composes: current look plus caption
when the image argument is truthy, then the raw user message. -/
def chatWithStylistParts (message : String)
    (currentImageBase64 : Option String) : List Part :=
  let parts1 :=
    if truthy currentImageBase64 then
      [fileToGenerativePart (currentImageBase64.getD "") "image/jpeg",
       Part.text stylistCaption]
    else []
  parts1 ++ [Part.text message]

structure StylistResult where
  text : String
  groundingUrls : List GroundingUrl
deriving DecidableEq, Repr

/-- Source `chatWithStylist`: composes the parts, calls the chat model with
search grounding, substitutes the fallback for absent/empty text, and keeps
only grounding chunks with truthy uri and title.  The `history` parameter
is accepted exactly as in the source, which never reads it. -/
def chatWithStylist (gw : ConsultGateway) (message : String)
    (currentImageBase64 : Option String) (history : List ChatMessage) :
    Except Unit StylistResult :=
  match gw (chatWithStylistParts message currentImageBase64) with
  | Except.error e => Except.error e
  | Except.ok (t, chunks) =>
    let text :=
      match t with
      | some s => if truthyStr s then s else fallbackStylistText
      | none => fallbackStylistText
    let groundingUrls := chunks.filterMap (fun c =>
      match c.uri, c.title with
      | some u, some ti =>
        if truthyStr u && truthyStr ti then some ⟨ti, u⟩ else none
      | _, _ => none)
    Except.ok ⟨text, groundingUrls⟩

/-- Route names of `detectIntent`; the source literal `CHAT` is what the
specification calls `CONSULT`. -/
inductive Intent
  | EDIT_IMAGE
  | CHAT
deriving DecidableEq, Repr

/-- The specification's name for the source's `CHAT` route. -/
def Intent.CONSULT : Intent := Intent.CHAT

/-- Source keyword list `visualKeywords` of `detectIntent`. -/
def visualKeywords : List String :=
  ["change", "make", "add", "remove", "wear", "try", "color", "style", "shape",
   "rim", "lens", "thinner", "thicker", "bigger", "smaller", "metal", "plastic",
   "gold", "silver", "black", "blue", "red", "green", "tortoise", "transparent",
   "generate", "create", "visualize"]

/-- The commerce keywords tested first by `detectIntent` (inline in the
source's if-condition). -/
def commerceKeywords : List String :=
  ["buy", "link", "where", "cost", "price", "brand", "shop", "find", "similar"]

/-- Source `detectIntent`: commerce keywords first (CHAT), then visual
keywords (EDIT_IMAGE), default CHAT. -/
def detectIntent (message : String) : Intent :=
  let lowerMsg := toLowerCase message
  if jsIncludes lowerMsg "buy" || jsIncludes lowerMsg "link"
      || jsIncludes lowerMsg "where" || jsIncludes lowerMsg "cost"
      || jsIncludes lowerMsg "price" || jsIncludes lowerMsg "brand"
      || jsIncludes lowerMsg "shop" || jsIncludes lowerMsg "find"
      || jsIncludes lowerMsg "similar" then
    Intent.CHAT
  else if visualKeywords.any (fun k => jsIncludes lowerMsg k) then
    Intent.EDIT_IMAGE
  else
    Intent.CHAT

/-! ## App component state and handlers -/

/-- The App component's state fields relevant to the orchestrator:
`userImage` is the spec's `baseImage`, `generatedImage` the spec's
`currentImage`.  Images are stored as data URLs (`string | null`). -/
structure AppState where
  userImage : Option String
  generatedImage : Option String
  referenceImage : Option String
  chatHistory : List ChatMessage
  inputMessage : String
  isGenerating : Bool
deriving DecidableEq, Repr

/-- The single gateway request a turn issues: an image-synthesis request or
a grounded consultation request, each carrying its composed parts. -/
inductive GatewayRequest
  | synth (parts : List Part)
  | consult (parts : List Part)
deriving DecidableEq, Repr

/-- Result of running one turn of `handleSendMessage`: the new component
state, the gateway request issued by the turn (if any), and whether the
turn ended in the catch branch (a gateway failure). -/
structure TurnResult where
  state : AppState
  request : Option GatewayRequest
  failed : Bool
deriving DecidableEq, Repr

/-- Source line `const currentRefImage = overrideRefImage || referenceImage`. -/
def currentRefOf (overrideRefImage : Option String) (s : AppState) : Option String :=
  jsOr overrideRefImage s.referenceImage

/-- The route of a turn, from the source's
`const intent = currentRefImage ? 'EDIT_IMAGE' : detectIntent(text)`. -/
def routeOf (text : String) (overrideRefImage : Option String) (s : AppState) : Intent :=
  if truthy (currentRefOf overrideRefImage s) then Intent.EDIT_IMAGE
  else detectIntent text

/-- Source line `const rawRefImage = currentRefImage ? cleanBase64(currentRefImage) : undefined`. -/
def rawRefImageOf (overrideRefImage : Option String) (s : AppState) : Option String :=
  if truthy (currentRefOf overrideRefImage s) then
    some (cleanBase64 ((currentRefOf overrideRefImage s).getD ""))
  else none

/-- Source line
`const currentContextImage = generatedImage ? cleanBase64(generatedImage) : cleanBase64(userImage)`. -/
def consultContextImage (s : AppState) : String :=
  if truthy s.generatedImage then cleanBase64 (s.generatedImage.getD "")
  else cleanBase64 (s.userImage.getD "")

/-- The MODEL turn appended when the base photo is missing. -/
def askPhotoTurn (now : Nat) : ChatMessage :=
  { role := MessageRole.MODEL,
    text := "Please upload a photo of yourself first!", timestamp := now }

/-- The MODEL turn appended in the catch branch of the pipeline. -/
def errorTurn (now : Nat) : ChatMessage :=
  { role := MessageRole.MODEL,
    text := "Sorry, something went wrong. Please try again.",
    isError := true, timestamp := now }

/-- The MODEL acknowledgement after a successful synthesis, which depends
on whether a reference image was used this turn. -/
def editAckText (usedReference : Bool) : String :=
  if usedReference then
    "I\x27ve placed the glasses from your reference image onto your face. How do they fit?"
  else
    "Here is the updated look based on your request. Use the slider to compare!"

/-- Source `handleSendMessage`, parameterised by the two gateway oracles
and the clock value used for the turn's timestamps.  React's functional
`setChatHistory(prev => ...)` updates are modelled as sequential state
updates; the closure reads of `userImage`, `generatedImage`,
`referenceImage` and `chatHistory` inside the pipeline use the pre-turn
state `s`, as the source's closures do. -/
def handleSendMessage (synthGw : SynthGateway) (consultGw : ConsultGateway)
    (now : Nat) (text : String) (overrideRefImage : Option String)
    (s : AppState) : TurnResult :=
  if !truthyStr (jsTrim text) && !truthy overrideRefImage then
    ⟨s, none, false⟩
  else
    let userMsg : ChatMessage :=
      { role := MessageRole.USER, text := text, timestamp := now }
    let s1 : AppState :=
      { s with chatHistory := s.chatHistory ++ [userMsg], inputMessage := "" }
    if !truthy s.userImage then
      ⟨{ s1 with chatHistory := s1.chatHistory ++ [askPhotoTurn now] },
       none, false⟩
    else
      match routeOf text overrideRefImage s with
      | Intent.EDIT_IMAGE =>
        let rawUserImage := cleanBase64 (s.userImage.getD "")
        let rawRefImage := rawRefImageOf overrideRefImage s
        let parts := generateEyewearImageParts rawUserImage text rawRefImage
        match generateEyewearImage synthGw rawUserImage text rawRefImage with
        | Except.ok newImageBase64 =>
          let fullNewImage := "data:image/jpeg;base64," ++ newImageBase64
          let modelMsg : ChatMessage :=
            { role := MessageRole.MODEL,
              text := editAckText (truthy (currentRefOf overrideRefImage s)),
              timestamp := now }
          ⟨{ s1 with generatedImage := some fullNewImage,
                     chatHistory := s1.chatHistory ++ [modelMsg],
                     isGenerating := false },
           some (GatewayRequest.synth parts), false⟩
        | Except.error _ =>
          ⟨{ s1 with chatHistory := s1.chatHistory ++ [errorTurn now],
                     isGenerating := false },
           some (GatewayRequest.synth parts), true⟩
      | Intent.CHAT =>
        let ctx := consultContextImage s
        let parts := chatWithStylistParts text (some ctx)
        match chatWithStylist consultGw text (some ctx) s.chatHistory with
        | Except.ok response =>
          let modelMsg : ChatMessage :=
            { role := MessageRole.MODEL, text := response.text,
              timestamp := now, groundingUrls := response.groundingUrls }
          ⟨{ s1 with chatHistory := s1.chatHistory ++ [modelMsg],
                     isGenerating := false },
           some (GatewayRequest.consult parts), false⟩
        | Except.error _ =>
          ⟨{ s1 with chatHistory := s1.chatHistory ++ [errorTurn now],
                     isGenerating := false },
           some (GatewayRequest.consult parts), true⟩

/-- Source `handleReferenceImageUpload`: stores the reference image and
submits a fixed try-on message with the new image as the explicit override
(the override short-circuits the stale closure read of `referenceImage`). -/
def handleReferenceImageUpload (synthGw : SynthGateway)
    (consultGw : ConsultGateway) (now : Nat) (base64 : String)
    (s : AppState) : TurnResult :=
  handleSendMessage synthGw consultGw now
    "I\x27ve uploaded a picture of some glasses. Can I try them on?"
    (some base64) { s with referenceImage := some base64 }

/-- The base-photo remove button:
`onClick={() => { setUserImage(null); setGeneratedImage(null); }}`. -/
def removeUserPhoto (s : AppState) : AppState :=
  { s with userImage := none, generatedImage := none }

/-! ## Concrete oracles and states used by witnesses and counterexamples -/

/-- A synthesis oracle that always succeeds with fixed bytes. -/
def okSynthGw : SynthGateway := fun _ => Except.ok (some "NEWBYTES")

/-- A consultation oracle that always succeeds with fixed text. -/
def okConsultGw : ConsultGateway :=
  fun _ => Except.ok (some "Here are some matching frames.", [])

/-- A synthesis oracle that always fails (transport error). -/
def failSynthGw : SynthGateway := fun _ => Except.error ()

/-- A consultation oracle that always fails (transport error). -/
def failConsultGw : ConsultGateway := fun _ => Except.error ()

/-- A session state right after the user uploaded a photo. -/
def baseState : AppState :=
  { userImage := some "data:image/jpeg;base64,AAA",
    generatedImage := none,
    referenceImage := none,
    chatHistory := [],
    inputMessage := "",
    isGenerating := false }

/-- A session in which a synthesis already succeeded: both the base photo
and a generated current look are present. -/
def editHistoryState : AppState :=
  { baseState with generatedImage := some "data:image/jpeg;base64,BBB" }

/-- A session with a current look and a non-empty conversation record. -/
def consultHistoryState : AppState :=
  { baseState with
    generatedImage := some "data:image/jpeg;base64,BBB",
    chatHistory :=
      [{ role := MessageRole.USER, text := "prior question", timestamp := 1 },
       { role := MessageRole.MODEL, text := "prior answer", timestamp := 2 }] }

/-- The state reached after uploading a reference image into `baseState`
and letting the triggered try-on turn complete successfully. -/
def c3AfterUpload : AppState :=
  (handleReferenceImageUpload okSynthGw okConsultGw 1
    "data:image/jpeg;base64,RRR" baseState).state

/-- A session with no base photo. -/
def noBaseState : AppState :=
  { baseState with userImage := none }

/-- A session holding a generated look and a reference image. -/
def c9State : AppState :=
  { baseState with
    generatedImage := some "data:image/jpeg;base64,BBB",
    referenceImage := some "data:image/jpeg;base64,RRR" }

/-! ## Supporting lemmas -/

/-- Splitting a list that does not contain the separator yields one chunk. -/
lemma splitOnChar_of_not_mem (sep : Char) (l : List Char) (h : sep ∉ l) :
    splitOnChar sep l = [l] := by
  induction l with
  | nil => rfl
  | cons c rest ih =>
    have hc : ¬ c = sep := fun hce => h (hce ▸ List.mem_cons_self c rest)
    have hr : splitOnChar sep rest = [rest] :=
      ih (fun hm => h (List.mem_cons_of_mem c hm))
    simp [splitOnChar, hc, hr]

/-- Splitting at the first separator occurrence detaches the prefix. -/
lemma splitOnChar_append (sep : Char) (pre post : List Char) (h : sep ∉ pre) :
    splitOnChar sep (pre ++ sep :: post) = pre :: splitOnChar sep post := by
  induction pre with
  | nil => simp [splitOnChar]
  | cons c rest ih =>
    have hc : ¬ c = sep := fun hce => h (hce ▸ List.mem_cons_self c rest)
    have hr := ih (fun hm => h (List.mem_cons_of_mem c hm))
    simp [splitOnChar, hc, hr]

/-- `cleanBase64` recovers the payload of a jpeg data URL whose payload
contains no comma (base64 payloads never do). -/
lemma cleanBase64_dataUrl (bytes : String) (h : ',' ∉ bytes.data) :
    cleanBase64 ("data:image/jpeg;base64," ++ bytes) = bytes := by
  obtain ⟨l⟩ := bytes
  have h1 : ("data:image/jpeg;base64," ++ String.mk l).data
      = "data:image/jpeg;base64,".data ++ l := rfl
  have h2 : "data:image/jpeg;base64,".data
      = "data:image/jpeg;base64".data ++ [','] := by decide
  unfold cleanBase64
  rw [h1, h2, List.append_assoc, List.singleton_append,
    splitOnChar_append ',' _ _ (by decide),
    splitOnChar_of_not_mem ',' l h]

/-- The composed synthesis parts always start with the base image part. -/
lemma generateEyewearImageParts_head (base prompt : String)
    (ref : Option String) :
    (generateEyewearImageParts base prompt ref).head? =
      some (Part.inlineData base "image/jpeg") := by
  unfold generateEyewearImageParts fileToGenerativePart
  cases h : truthy ref <;> simp [h]

/-! ## Claims -/

/-- Claim C4: whenever the lower-cased text contains a commerce keyword and
a visual keyword and no explicit reference image is present, the route is
the consultation route (the source's `CHAT`): commerce precedence over the
visual-keyword test. -/
theorem C4_commerce_precedence (message : String)
    (overrideRefImage : Option String) (s : AppState)
    (href : truthy (currentRefOf overrideRefImage s) = false)
    (hc : commerceKeywords.any
      (fun k => jsIncludes (toLowerCase message) k) = true)
    (hv : visualKeywords.any
      (fun k => jsIncludes (toLowerCase message) k) = true) :
    routeOf message overrideRefImage s = Intent.CONSULT := by
  have hc9 : jsIncludes (toLowerCase message) "buy" = true
      ∨ jsIncludes (toLowerCase message) "link" = true
      ∨ jsIncludes (toLowerCase message) "where" = true
      ∨ jsIncludes (toLowerCase message) "cost" = true
      ∨ jsIncludes (toLowerCase message) "price" = true
      ∨ jsIncludes (toLowerCase message) "brand" = true
      ∨ jsIncludes (toLowerCase message) "shop" = true
      ∨ jsIncludes (toLowerCase message) "find" = true
      ∨ jsIncludes (toLowerCase message) "similar" = true := by
    simpa [commerceKeywords] using hc
  unfold routeOf Intent.CONSULT
  rw [href]
  rcases hc9 with h | h | h | h | h | h | h | h | h <;>
    simp [detectIntent, h]

/-- Witness for C4 at the spec's own example "find similar gold frames". -/
theorem C4_commerce_precedence_witness :
    truthy (currentRefOf none baseState) = false
    ∧ commerceKeywords.any
        (fun k => jsIncludes (toLowerCase "find similar gold frames") k) = true
    ∧ visualKeywords.any
        (fun k => jsIncludes (toLowerCase "find similar gold frames") k) = true
    ∧ routeOf "find similar gold frames" none baseState = Intent.CONSULT :=
  ⟨by decide, by decide, by decide,
   C4_commerce_precedence "find similar gold frames" none baseState
     (by decide) (by decide) (by decide)⟩

/-- Claim C5: a truthy explicit reference image forces the EDIT_IMAGE route
for every text, including empty text, and (when the base photo is present)
the turn issues a synthesis request; the text classifier's verdict is
irrelevant. -/
theorem C5_reference_forces_edit (text : String)
    (overrideRefImage : Option String) (s : AppState)
    (synthGw : SynthGateway) (consultGw : ConsultGateway) (now : Nat)
    (h : truthy overrideRefImage = true) :
    routeOf text overrideRefImage s = Intent.EDIT_IMAGE
    ∧ (truthy s.userImage = true →
        (handleSendMessage synthGw consultGw now text overrideRefImage s).request
          = some (GatewayRequest.synth (generateEyewearImageParts
              (cleanBase64 (s.userImage.getD "")) text
              (rawRefImageOf overrideRefImage s)))) := by
  have hcur : truthy (currentRefOf overrideRefImage s) = true := by
    unfold currentRefOf jsOr
    rw [h]
    exact h
  have hroute : routeOf text overrideRefImage s = Intent.EDIT_IMAGE := by
    simp [routeOf, hcur]
  refine ⟨hroute, fun hbase => ?_⟩
  unfold handleSendMessage
  rw [h, hroute, hbase]
  cases hE : generateEyewearImage synthGw (cleanBase64 (s.userImage.getD ""))
      text (rawRefImageOf overrideRefImage s) <;>
    simp [hE]

/-- Witness for C5 with empty text and a concrete reference image. -/
theorem C5_reference_forces_edit_witness :
    truthy (some "data:image/jpeg;base64,RRR") = true
    ∧ (routeOf "" (some "data:image/jpeg;base64,RRR") baseState
        = Intent.EDIT_IMAGE
      ∧ (truthy baseState.userImage = true →
          (handleSendMessage okSynthGw okConsultGw 4 ""
              (some "data:image/jpeg;base64,RRR") baseState).request
            = some (GatewayRequest.synth (generateEyewearImageParts
                (cleanBase64 (baseState.userImage.getD "")) ""
                (rawRefImageOf (some "data:image/jpeg;base64,RRR") baseState))))) :=
  ⟨by decide,
   C5_reference_forces_edit "" (some "data:image/jpeg;base64,RRR") baseState
     okSynthGw okConsultGw 4 (by decide)⟩

/-- Claim C10: a turn whose text trims to empty and that carries no
reference image is a complete no-op: state unchanged, no request issued,
no failure recorded. -/
theorem C10_blank_turn_noop (synthGw : SynthGateway)
    (consultGw : ConsultGateway) (now : Nat) (text : String)
    (overrideRefImage : Option String) (s : AppState)
    (ht : jsTrim text = "") (hov : truthy overrideRefImage = false) :
    handleSendMessage synthGw consultGw now text overrideRefImage s
      = ⟨s, none, false⟩ := by
  unfold handleSendMessage
  rw [ht, hov]
  rfl

/-- Witness for C10 on a whitespace-only message. -/
theorem C10_blank_turn_noop_witness :
    jsTrim "   " = "" ∧ truthy none = false
    ∧ handleSendMessage okSynthGw okConsultGw 7 "   " none baseState
        = ⟨baseState, none, false⟩ :=
  ⟨by decide, by decide,
   C10_blank_turn_noop okSynthGw okConsultGw 7 "   " none baseState
     (by decide) (by decide)⟩

/-- Claim C9 counterexample: removing the base photo clears `userImage` and
`generatedImage` but leaves the stored reference image in place, so not all
LookState fields are reset by that single operation. -/
theorem C9_counterexample :
    (removeUserPhoto c9State).userImage = none
    ∧ (removeUserPhoto c9State).generatedImage = none
    ∧ (removeUserPhoto c9State).referenceImage
        = some "data:image/jpeg;base64,RRR"
    ∧ some "data:image/jpeg;base64,RRR" ≠ (none : Option String) := by
  decide

/-- Claim C9, amended: removing the base photo clears `baseImage` and
`currentImage`; `referenceImage` (and the transcript) are left unchanged by
that operation. -/
theorem C9_remove_photo_amended (s : AppState) :
    (removeUserPhoto s).userImage = none
    ∧ (removeUserPhoto s).generatedImage = none
    ∧ (removeUserPhoto s).referenceImage = s.referenceImage
    ∧ (removeUserPhoto s).chatHistory = s.chatHistory := by
  simp [removeUserPhoto]

/-- Witness for the amended C9 at a state holding all three images. -/
theorem C9_remove_photo_amended_witness :
    (removeUserPhoto c9State).userImage = none
    ∧ (removeUserPhoto c9State).generatedImage = none
    ∧ (removeUserPhoto c9State).referenceImage = c9State.referenceImage
    ∧ (removeUserPhoto c9State).chatHistory = c9State.chatHistory :=
  C9_remove_photo_amended c9State

/-- Claim C1 counterexample: with a current look present (payload "BBB"),
an EDIT_IMAGE turn still attaches the original base image payload "AAA" as
the first image of the synthesis request, not the current look. -/
theorem C1_counterexample :
    (handleSendMessage okSynthGw okConsultGw 0 "add gold frames" none
        editHistoryState).request
      = some (GatewayRequest.synth
          (generateEyewearImageParts "AAA" "add gold frames" none))
    ∧ (generateEyewearImageParts "AAA" "add gold frames" none).head?
        = some (Part.inlineData "AAA" "image/jpeg")
    ∧ cleanBase64 (editHistoryState.generatedImage.getD "") = "BBB"
    ∧ ("AAA" : String) ≠ "BBB" := by
  decide

/-- Claim C2 counterexample: a CONSULT turn's composed request consists of
the current look with the frame-focus caption and the raw user text only;
erasing the recorded conversation history leaves the composed request
unchanged, so the request does not contain the history. -/
theorem C2_counterexample :
    (handleSendMessage okSynthGw okConsultGw 5 "where can I buy these" none
        consultHistoryState).request
      = some (GatewayRequest.consult
          [Part.inlineData "BBB" "image/jpeg", Part.text stylistCaption,
           Part.text "where can I buy these"])
    ∧ (handleSendMessage okSynthGw okConsultGw 5 "where can I buy these" none
          { consultHistoryState with chatHistory := [] }).request
        = (handleSendMessage okSynthGw okConsultGw 5 "where can I buy these"
            none consultHistoryState).request
    ∧ consultHistoryState.chatHistory ≠ [] := by
  decide

set_option maxRecDepth 4096 in
/-- Claim C3 counterexample: the reference image uploaded in an earlier
turn ("RRR") is still stored afterwards and is attached again to the
request composed by the next plain-text turn, without being re-supplied. -/
theorem C3_counterexample :
    c3AfterUpload.referenceImage = some "data:image/jpeg;base64,RRR"
    ∧ (handleSendMessage okSynthGw okConsultGw 2 "make the rim thinner" none
          c3AfterUpload).request
        = some (GatewayRequest.synth (generateEyewearImageParts "AAA"
            "make the rim thinner" (some "RRR")))
    ∧ Part.inlineData "RRR" "image/jpeg"
        ∈ generateEyewearImageParts "AAA" "make the rim thinner"
            (some "RRR") := by
  decide

/-- Claim C6 counterexample: with no base photo, the turn appends a MODEL
turn asking for a photo and composes no gateway request, but that turn is
not flagged `isError`. -/
theorem C6_counterexample :
    (handleSendMessage okSynthGw okConsultGw 3 "make it red" none
        noBaseState).request = none
    ∧ (handleSendMessage okSynthGw okConsultGw 3 "make it red" none
          noBaseState).state.chatHistory
        = [{ role := MessageRole.USER, text := "make it red", timestamp := 3 },
           { role := MessageRole.MODEL,
             text := "Please upload a photo of yourself first!",
             timestamp := 3 }]
    ∧ (askPhotoTurn 3).isError = false := by
  decide

/-- Claim C1, amended: every EDIT_IMAGE turn (with the base photo present)
attaches the base image `userImage` as the edit base — the first attached
image of the synthesis request — regardless of whether a current generated
look exists; only CONSULT turns reuse the current look. -/
theorem C1_edit_base_amended (synthGw : SynthGateway)
    (consultGw : ConsultGateway) (now : Nat) (text : String)
    (overrideRefImage : Option String) (s : AppState)
    (hguard : (!truthyStr (jsTrim text) && !truthy overrideRefImage) = false)
    (hbase : truthy s.userImage = true)
    (hroute : routeOf text overrideRefImage s = Intent.EDIT_IMAGE) :
    (handleSendMessage synthGw consultGw now text overrideRefImage s).request
      = some (GatewayRequest.synth (generateEyewearImageParts
          (cleanBase64 (s.userImage.getD "")) text
          (rawRefImageOf overrideRefImage s)))
    ∧ (generateEyewearImageParts (cleanBase64 (s.userImage.getD "")) text
          (rawRefImageOf overrideRefImage s)).head?
        = some (Part.inlineData (cleanBase64 (s.userImage.getD ""))
            "image/jpeg") := by
  refine ⟨?_, generateEyewearImageParts_head _ _ _⟩
  unfold handleSendMessage
  rw [hguard, hbase, hroute]
  cases hE : generateEyewearImage synthGw (cleanBase64 (s.userImage.getD ""))
      text (rawRefImageOf overrideRefImage s) <;>
    simp [hE]

/-- Witness for the amended C1 in a session with a current look present. -/
theorem C1_edit_base_amended_witness :
    (!truthyStr (jsTrim "add gold frames") && !truthy none) = false
    ∧ truthy editHistoryState.userImage = true
    ∧ routeOf "add gold frames" none editHistoryState = Intent.EDIT_IMAGE
    ∧ ((handleSendMessage okSynthGw okConsultGw 0 "add gold frames" none
          editHistoryState).request
        = some (GatewayRequest.synth (generateEyewearImageParts
            (cleanBase64 (editHistoryState.userImage.getD ""))
            "add gold frames" (rawRefImageOf none editHistoryState)))
      ∧ (generateEyewearImageParts
            (cleanBase64 (editHistoryState.userImage.getD ""))
            "add gold frames" (rawRefImageOf none editHistoryState)).head?
          = some (Part.inlineData
              (cleanBase64 (editHistoryState.userImage.getD ""))
              "image/jpeg")) :=
  ⟨by decide, by decide, by decide,
   C1_edit_base_amended okSynthGw okConsultGw 0 "add gold frames" none
     editHistoryState (by decide) (by decide) (by decide)⟩

/-- Claim C2, amended: every CONSULT turn composes a request holding the
most recent visual state (`currentImage` if present else `baseImage`) with
the frame-focus caption and the raw user text; the conversation history is
passed to the consult operation but is not part of the composed request,
which is unchanged under any replacement of the recorded history. -/
theorem C2_consult_request_amended (synthGw : SynthGateway)
    (consultGw : ConsultGateway) (now : Nat) (text : String)
    (overrideRefImage : Option String) (s : AppState)
    (otherHistory : List ChatMessage)
    (hguard : (!truthyStr (jsTrim text) && !truthy overrideRefImage) = false)
    (hbase : truthy s.userImage = true)
    (hroute : routeOf text overrideRefImage s = Intent.CHAT)
    (hctx : truthyStr (consultContextImage s) = true) :
    (handleSendMessage synthGw consultGw now text overrideRefImage s).request
      = some (GatewayRequest.consult
          [Part.inlineData (consultContextImage s) "image/jpeg",
           Part.text stylistCaption, Part.text text])
    ∧ (handleSendMessage synthGw consultGw now text overrideRefImage
          { s with chatHistory := otherHistory }).request
        = (handleSendMessage synthGw consultGw now text overrideRefImage
            s).request := by
  have aux : ∀ st : AppState, truthy st.userImage = true →
      routeOf text overrideRefImage st = Intent.CHAT →
      (handleSendMessage synthGw consultGw now text overrideRefImage
          st).request
        = some (GatewayRequest.consult (chatWithStylistParts text
            (some (consultContextImage st)))) := by
    intro st hb hr
    unfold handleSendMessage
    rw [hguard, hb, hr]
    cases hE : chatWithStylist consultGw text
        (some (consultContextImage st)) st.chatHistory <;>
      simp [hE]
  have hparts : chatWithStylistParts text (some (consultContextImage s))
      = [Part.inlineData (consultContextImage s) "image/jpeg",
         Part.text stylistCaption, Part.text text] := by
    simp [chatWithStylistParts, truthy, hctx, fileToGenerativePart]
  refine ⟨(aux s hbase hroute).trans (by rw [hparts]), ?_⟩
  rw [aux s hbase hroute, aux { s with chatHistory := otherHistory } hbase
    hroute]
  rfl

/-- Witness for the amended C2 at a session with a non-empty transcript and
a current look. -/
theorem C2_consult_request_amended_witness :
    (!truthyStr (jsTrim "where can I buy these") && !truthy none) = false
    ∧ truthy consultHistoryState.userImage = true
    ∧ routeOf "where can I buy these" none consultHistoryState = Intent.CHAT
    ∧ truthyStr (consultContextImage consultHistoryState) = true
    ∧ ((handleSendMessage okSynthGw okConsultGw 5 "where can I buy these"
          none consultHistoryState).request
        = some (GatewayRequest.consult
            [Part.inlineData (consultContextImage consultHistoryState)
               "image/jpeg",
             Part.text stylistCaption, Part.text "where can I buy these"])
      ∧ (handleSendMessage okSynthGw okConsultGw 5 "where can I buy these"
            none { consultHistoryState with chatHistory := [] }).request
          = (handleSendMessage okSynthGw okConsultGw 5 "where can I buy these"
              none consultHistoryState).request) :=
  ⟨by decide, by decide, by decide, by decide,
   C2_consult_request_amended okSynthGw okConsultGw 5 "where can I buy these"
     none consultHistoryState [] (by decide) (by decide) (by decide)
     (by decide)⟩

/-- Claim C3, amended: a stored reference image persists across turns: any
later turn with truthy stored reference (and no new override) routes to
EDIT_IMAGE, attaches the stored reference to the composed synthesis
request, and leaves the reference stored afterwards; it is only removed by
an explicit clear or replacement. -/
theorem C3_reference_persists_amended (synthGw : SynthGateway)
    (consultGw : ConsultGateway) (now : Nat) (text : String) (s : AppState)
    (ht : truthyStr (jsTrim text) = true)
    (hbase : truthy s.userImage = true)
    (href : truthy s.referenceImage = true)
    (hraw : truthyStr (cleanBase64 (s.referenceImage.getD "")) = true) :
    (handleSendMessage synthGw consultGw now text none s).request
      = some (GatewayRequest.synth (generateEyewearImageParts
          (cleanBase64 (s.userImage.getD "")) text
          (some (cleanBase64 (s.referenceImage.getD "")))))
    ∧ Part.inlineData (cleanBase64 (s.referenceImage.getD "")) "image/jpeg"
        ∈ generateEyewearImageParts (cleanBase64 (s.userImage.getD "")) text
            (some (cleanBase64 (s.referenceImage.getD "")))
    ∧ (handleSendMessage synthGw consultGw now text none
          s).state.referenceImage = s.referenceImage := by
  have hcur : currentRefOf none s = s.referenceImage := rfl
  have hcurT : truthy (currentRefOf none s) = true := by
    rw [hcur]
    exact href
  have hroute : routeOf text none s = Intent.EDIT_IMAGE := by
    simp [routeOf, hcurT]
  have hrawEq : rawRefImageOf none s
      = some (cleanBase64 (s.referenceImage.getD "")) := by
    unfold rawRefImageOf
    rw [hcurT, hcur]
    rfl
  have hguard : (!truthyStr (jsTrim text) && !truthy (none : Option String))
      = false := by
    rw [ht]
    rfl
  have hrefT : truthy (some (cleanBase64 (s.referenceImage.getD ""))) = true :=
    hraw
  refine ⟨?_, ?_, ?_⟩
  · unfold handleSendMessage
    rw [hguard, hbase, hroute, hrawEq]
    cases hE : generateEyewearImage synthGw (cleanBase64 (s.userImage.getD ""))
        text (some (cleanBase64 (s.referenceImage.getD ""))) <;>
      simp [hE]
  · simp [generateEyewearImageParts, fileToGenerativePart, hrefT]
  · unfold handleSendMessage
    rw [hguard, hbase, hroute, hrawEq]
    cases hE : generateEyewearImage synthGw (cleanBase64 (s.userImage.getD ""))
        text (some (cleanBase64 (s.referenceImage.getD ""))) <;>
      simp [hE]

/-- Witness for the amended C3 at the state reached after an earlier
reference upload, on a later plain-text turn. -/
theorem C3_reference_persists_amended_witness :
    truthyStr (jsTrim "make the rim thinner") = true
    ∧ truthy c3AfterUpload.userImage = true
    ∧ truthy c3AfterUpload.referenceImage = true
    ∧ truthyStr (cleanBase64 (c3AfterUpload.referenceImage.getD "")) = true
    ∧ ((handleSendMessage okSynthGw okConsultGw 2 "make the rim thinner" none
          c3AfterUpload).request
        = some (GatewayRequest.synth (generateEyewearImageParts
            (cleanBase64 (c3AfterUpload.userImage.getD ""))
            "make the rim thinner"
            (some (cleanBase64 (c3AfterUpload.referenceImage.getD "")))))
      ∧ Part.inlineData (cleanBase64 (c3AfterUpload.referenceImage.getD ""))
            "image/jpeg"
          ∈ generateEyewearImageParts
              (cleanBase64 (c3AfterUpload.userImage.getD ""))
              "make the rim thinner"
              (some (cleanBase64 (c3AfterUpload.referenceImage.getD "")))
      ∧ (handleSendMessage okSynthGw okConsultGw 2 "make the rim thinner"
            none c3AfterUpload).state.referenceImage
          = c3AfterUpload.referenceImage) :=
  ⟨by decide, by decide, by decide, by decide,
   C3_reference_persists_amended okSynthGw okConsultGw 2 "make the rim thinner"
     c3AfterUpload (by decide) (by decide) (by decide) (by decide)⟩

/-- Claim C6, amended: for every text/reference combination that passes the
submission guard, an unset base image makes the pipeline stop before
composing any gateway request and append a MODEL turn asking the user for a
photo; that turn is not flagged `isError`. -/
theorem C6_missing_base_amended (synthGw : SynthGateway)
    (consultGw : ConsultGateway) (now : Nat) (text : String)
    (overrideRefImage : Option String) (s : AppState)
    (hguard : (!truthyStr (jsTrim text) && !truthy overrideRefImage) = false)
    (hbase : truthy s.userImage = false) :
    handleSendMessage synthGw consultGw now text overrideRefImage s
      = ⟨{ s with
            chatHistory := s.chatHistory ++
              [{ role := MessageRole.USER, text := text, timestamp := now },
               askPhotoTurn now],
            inputMessage := "" }, none, false⟩
    ∧ (askPhotoTurn now).isError = false := by
  refine ⟨?_, rfl⟩
  unfold handleSendMessage
  rw [hguard, hbase]
  simp

/-- Witness for the amended C6 with no base photo uploaded. -/
theorem C6_missing_base_amended_witness :
    (!truthyStr (jsTrim "make it red") && !truthy none) = false
    ∧ truthy noBaseState.userImage = false
    ∧ (handleSendMessage okSynthGw okConsultGw 3 "make it red" none noBaseState
        = ⟨{ noBaseState with
              chatHistory := noBaseState.chatHistory ++
                [{ role := MessageRole.USER, text := "make it red",
                   timestamp := 3 },
                 askPhotoTurn 3],
              inputMessage := "" }, none, false⟩
      ∧ (askPhotoTurn 3).isError = false) :=
  ⟨by decide, by decide,
   C6_missing_base_amended okSynthGw okConsultGw 3 "make it red" none
     noBaseState (by decide) (by decide)⟩

/-- Claim C7: any turn whose gateway call fails leaves the three LookState
fields exactly as before, appends the user's turn followed by exactly one
MODEL turn flagged `isError`, and releases the in-flight status. -/
theorem C7_failure_preserves_state (synthGw : SynthGateway)
    (consultGw : ConsultGateway) (now : Nat) (text : String)
    (overrideRefImage : Option String) (s : AppState)
    (h : (handleSendMessage synthGw consultGw now text overrideRefImage
        s).failed = true) :
    (handleSendMessage synthGw consultGw now text overrideRefImage
        s).state.userImage = s.userImage
    ∧ (handleSendMessage synthGw consultGw now text overrideRefImage
        s).state.generatedImage = s.generatedImage
    ∧ (handleSendMessage synthGw consultGw now text overrideRefImage
        s).state.referenceImage = s.referenceImage
    ∧ (handleSendMessage synthGw consultGw now text overrideRefImage
        s).state.chatHistory = s.chatHistory ++
          [{ role := MessageRole.USER, text := text, timestamp := now },
           errorTurn now]
    ∧ (errorTurn now).isError = true
    ∧ (errorTurn now).role = MessageRole.MODEL
    ∧ (handleSendMessage synthGw consultGw now text overrideRefImage
        s).state.isGenerating = false := by
  unfold handleSendMessage at h ⊢
  cases hg : (!truthyStr (jsTrim text) && !truthy overrideRefImage) with
  | true =>
    simp [hg] at h
  | false =>
    simp only [hg] at h ⊢
    cases hb : truthy s.userImage with
    | false =>
      simp [hb] at h
    | true =>
      simp only [hb] at h ⊢
      cases hr : routeOf text overrideRefImage s with
      | EDIT_IMAGE =>
        simp only [hr] at h ⊢
        cases hE : generateEyewearImage synthGw
            (cleanBase64 (s.userImage.getD "")) text
            (rawRefImageOf overrideRefImage s) with
        | ok v =>
          simp [hE] at h
        | error e =>
          simp [hE, errorTurn]
      | CHAT =>
        simp only [hr] at h ⊢
        cases hE : chatWithStylist consultGw text
            (some (consultContextImage s)) s.chatHistory with
        | ok v =>
          simp [hE] at h
        | error e =>
          simp [hE, errorTurn]

/-- Witness for C7 on a synthesis turn whose gateway call fails, in a
session that already holds a generated look. -/
theorem C7_failure_preserves_state_witness :
    (handleSendMessage failSynthGw failConsultGw 9 "make it red" none
        editHistoryState).failed = true
    ∧ ((handleSendMessage failSynthGw failConsultGw 9 "make it red" none
          editHistoryState).state.userImage = editHistoryState.userImage
      ∧ (handleSendMessage failSynthGw failConsultGw 9 "make it red" none
          editHistoryState).state.generatedImage
            = editHistoryState.generatedImage
      ∧ (handleSendMessage failSynthGw failConsultGw 9 "make it red" none
          editHistoryState).state.referenceImage
            = editHistoryState.referenceImage
      ∧ (handleSendMessage failSynthGw failConsultGw 9 "make it red" none
          editHistoryState).state.chatHistory
            = editHistoryState.chatHistory ++
              [{ role := MessageRole.USER, text := "make it red",
                 timestamp := 9 }, errorTurn 9]
      ∧ (errorTurn 9).isError = true
      ∧ (errorTurn 9).role = MessageRole.MODEL
      ∧ (handleSendMessage failSynthGw failConsultGw 9 "make it red" none
          editHistoryState).state.isGenerating = false) :=
  ⟨by decide,
   C7_failure_preserves_state failSynthGw failConsultGw 9 "make it red" none
     editHistoryState (by decide)⟩

/-- Claim C8: after a successful EDIT_IMAGE pipeline, `generatedImage`
holds exactly the synthesized bytes returned by the gateway (as a jpeg data
URL whose payload is recovered by `cleanBase64`), the base image is
unchanged, and exactly one MODEL turn is appended after the user's turn. -/
theorem C8_edit_success (synthGw : SynthGateway) (consultGw : ConsultGateway)
    (now : Nat) (text : String) (overrideRefImage : Option String)
    (s : AppState) (bytes : String)
    (hguard : (!truthyStr (jsTrim text) && !truthy overrideRefImage) = false)
    (hbase : truthy s.userImage = true)
    (hroute : routeOf text overrideRefImage s = Intent.EDIT_IMAGE)
    (hgw : synthGw (generateEyewearImageParts
        (cleanBase64 (s.userImage.getD "")) text
        (rawRefImageOf overrideRefImage s)) = Except.ok (some bytes))
    (hnc : ',' ∉ bytes.data) :
    (handleSendMessage synthGw consultGw now text overrideRefImage
        s).state.generatedImage = some ("data:image/jpeg;base64," ++ bytes)
    ∧ cleanBase64 ("data:image/jpeg;base64," ++ bytes) = bytes
    ∧ (handleSendMessage synthGw consultGw now text overrideRefImage
        s).state.userImage = s.userImage
    ∧ (handleSendMessage synthGw consultGw now text overrideRefImage
        s).state.chatHistory = s.chatHistory ++
          [{ role := MessageRole.USER, text := text, timestamp := now },
           { role := MessageRole.MODEL,
             text := editAckText (truthy (currentRefOf overrideRefImage s)),
             timestamp := now }]
    ∧ (handleSendMessage synthGw consultGw now text overrideRefImage
        s).failed = false := by
  have hgen : generateEyewearImage synthGw (cleanBase64 (s.userImage.getD ""))
      text (rawRefImageOf overrideRefImage s) = Except.ok bytes := by
    unfold generateEyewearImage
    rw [hgw]
  refine ⟨?_, cleanBase64_dataUrl bytes hnc, ?_, ?_, ?_⟩ <;>
    · unfold handleSendMessage
      rw [hguard, hbase, hroute]
      simp [hgen]

/-- Witness for C8 on a concrete successful synthesis turn. -/
theorem C8_edit_success_witness :
    (!truthyStr (jsTrim "make it red") && !truthy none) = false
    ∧ truthy baseState.userImage = true
    ∧ routeOf "make it red" none baseState = Intent.EDIT_IMAGE
    ∧ okSynthGw (generateEyewearImageParts
        (cleanBase64 (baseState.userImage.getD "")) "make it red"
        (rawRefImageOf none baseState)) = Except.ok (some "NEWBYTES")
    ∧ ',' ∉ "NEWBYTES".data
    ∧ ((handleSendMessage okSynthGw okConsultGw 6 "make it red" none
          baseState).state.generatedImage
        = some ("data:image/jpeg;base64," ++ "NEWBYTES")
      ∧ cleanBase64 ("data:image/jpeg;base64," ++ "NEWBYTES") = "NEWBYTES"
      ∧ (handleSendMessage okSynthGw okConsultGw 6 "make it red" none
          baseState).state.userImage = baseState.userImage
      ∧ (handleSendMessage okSynthGw okConsultGw 6 "make it red" none
          baseState).state.chatHistory = baseState.chatHistory ++
            [{ role := MessageRole.USER, text := "make it red",
               timestamp := 6 },
             { role := MessageRole.MODEL,
               text := editAckText (truthy (currentRefOf none baseState)),
               timestamp := 6 }]
      ∧ (handleSendMessage okSynthGw okConsultGw 6 "make it red" none
          baseState).failed = false) :=
  ⟨by decide, by decide, by decide, rfl, by decide,
   C8_edit_success okSynthGw okConsultGw 6 "make it red" none baseState
     "NEWBYTES" (by decide) (by decide) (by decide) rfl (by decide)⟩

end VisionaryAI
